import Mathlib

/-!
Verification development for the invoice-extractor back end.

The Python sources under src/back-end are shallowly embedded below:
strings become lists of characters, database tables become lists of
records, SQLAlchemy `.first()` queries become `List.find?`, and the
outbound model calls are abstracted as function parameters so that the
control flow around them can be reasoned about.
-/

/-- Characters, as Python strings: a list of characters. -/
abbrev Str := List Char

/-- Whitespace predicate used by Python str.strip and str.split. -/
def wsp (c : Char) : Bool := c.isWhitespace

/-- Python str.lstrip (default whitespace). -/
def lstrip (s : Str) : Str := s.dropWhile wsp

/-- Python str.rstrip (default whitespace). -/
def rstrip (s : Str) : Str := (s.reverse.dropWhile wsp).reverse

/-- Python str.strip (default whitespace). -/
def pyStrip (s : Str) : Str := rstrip (lstrip s)

/-- Helper for pySplit: accumulates the current word in reverse. -/
def pySplitAux : Str → Str → List Str
  | [], acc => if acc.isEmpty then [] else [acc.reverse]
  | c :: s, acc =>
    if wsp c then
      if acc.isEmpty then pySplitAux s [] else acc.reverse :: pySplitAux s []
    else
      pySplitAux s (c :: acc)

/-- Python str.split with no argument: splits on whitespace runs, never
producing empty words. -/
def pySplit (s : Str) : List Str := pySplitAux s []

/-- Python sep.join for a list of strings. -/
def joinSep (sep : Str) : List Str → Str
  | [] => []
  | [x] => x
  | x :: y :: xs => x ++ sep ++ joinSep sep (y :: xs)

/-- Newline join, as used to concatenate per-page texts. -/
def joinNl (xs : List Str) : Str := joinSep ['\n'] xs

/-- Lower-case a string character by character. -/
def lowerStr (s : Str) : Str := s.map Char.toLower

/-- Substring test: pat occurs contiguously in s. -/
def containsSub (pat : Str) : Str → Bool
  | [] => pat.isEmpty
  | c :: s => pat.isPrefixOf (c :: s) || containsSub pat s

/-- Case-insensitive substring test: models a SQL ILIKE percent-pattern
built from the given needle. -/
def ciContains (pat s : Str) : Bool := containsSub (lowerStr pat) (lowerStr s)

/-- ILIKE applied to a nullable column: a NULL column never matches. -/
def ilikeSub (pat : Str) (field : Option Str) : Bool :=
  match field with
  | some s => ciContains pat s
  | none => false

/-- The plain code-fence marker. -/
def fence : Str := "```".toList

/-- The code-fence marker with the json language tag. -/
def fenceJson : Str := "```json".toList

/-- The response sanitizer, inline in call_openai_api
(openai_invoice_data.py lines 128-135), call_anthropic_api
(claude_data_finder.py lines 116-123) and the GPT extraction functions:
strip, drop a leading three-backtick-json marker, drop a leading
three-backtick marker, drop a trailing three-backtick marker, strip. -/
def sanitize_response (s : Str) : Str :=
  let s1 := pyStrip s
  let s2 := if fenceJson.isPrefixOf s1 then s1.drop 7 else s1
  let s3 := if fence.isPrefixOf s2 then s2.drop 3 else s2
  let s4 := if fence.isSuffixOf s3 then s3.take (s3.length - 3) else s3
  pyStrip s4

example : sanitize_response ("```json\nnull\n```".toList) = "null".toList := by decide
example : sanitize_response ("```python\nnull\n```".toList) = "python\nnull".toList := by decide
example : sanitize_response ("  null ".toList) = "null".toList := by decide
example : pySplit ("  Isabella   Torres ".toList) = ["Isabella".toList, "Torres".toList] := by decide
example : joinSep [' '] ["a".toList, "b".toList, "c".toList] = "a b c".toList := by decide
example : ciContains ("TOR".toList) ("isabella torres".toList) = true := by decide

/-! ## Customer directory (models.py) -/

/-- models.py IndividualCustomer: individual customer detail row. -/
structure IndividualCustomer where
  BusinessEntityID : Int
  FirstName : Option Str
  MiddleName : Option Str
  LastName : Option Str
  AddressType : Option Str
  AddressLine1 : Option Str
  AddressLine2 : Option Str
  City : Option Str
  StateProvinceName : Option Str
  PostalCode : Option Str
  CountryRegionName : Option Str
deriving DecidableEq

/-- models.py StoreCustomer: organization customer detail row. -/
structure StoreCustomer where
  BusinessEntityID : Int
  Name : Option Str
  AddressType : Option Str
  AddressLine1 : Option Str
  AddressLine2 : Option Str
  City : Option Str
  StateProvinceName : Option Str
  PostalCode : Option Str
  CountryRegionName : Option Str
deriving DecidableEq

/-- models.py Customer: links a detail row to territory and account. -/
structure Customer where
  CustomerID : Int
  PersonID : Option Int
  StoreID : Option Int
  TerritoryID : Int
  AccountNumber : Option Str
deriving DecidableEq

/-- The read-only customer directory; lists keep the native enumeration
order that SQLAlchemy .first() queries observe. -/
structure Db where
  individuals : List IndividualCustomer
  stores : List StoreCustomer
  customers : List Customer
deriving DecidableEq

/-- Individual-tier filter: FirstName ILIKE percent-first-percent AND
LastName ILIKE percent-last-percent. -/
def indMatch (fn ln : Str) (i : IndividualCustomer) : Bool :=
  ilikeSub fn i.FirstName && ilikeSub ln i.LastName

/-- Organization-tier filter: Name ILIKE percent-candidate-percent. -/
def storeMatch (cn : Str) (st : StoreCustomer) : Bool := ilikeSub cn st.Name

/-- Organization tier of match_customer_to_database
(claude_data_finder.py lines 180-197, openai_invoice_data.py lines
194-211): first store whose name matches, then the customer whose
StoreID equals that store's BusinessEntityID; identifiers returned. -/
def storeTier (cn : Str) (db : Db) : Option Int × Option Int :=
  match db.stores.find? (storeMatch cn) with
  | some st =>
    match db.customers.find? (fun c => c.StoreID == some st.BusinessEntityID) with
    | some c => (some c.CustomerID, some c.TerritoryID)
    | none => (none, none)
  | none => (none, none)

/-- match_customer_to_database of claude_data_finder.py (lines 138-197)
and openai_invoice_data.py (lines 152-211): resolves a candidate name to
(CustomerID, TerritoryID) or (None, None). -/
def match_customer_to_database (customer_name : Option Str) (db : Db) :
    Option Int × Option Int :=
  match customer_name with
  | none => (none, none)
  | some cn0 =>
    if cn0.isEmpty then (none, none)
    else
      let cn := pyStrip cn0
      match pySplit cn with
      | fn :: r :: rs =>
        (match db.individuals.find? (indMatch fn (joinSep [' '] (r :: rs))) with
         | some ind =>
           match db.customers.find? (fun c => c.PersonID == some ind.BusinessEntityID) with
           | some c => (some c.CustomerID, some c.TerritoryID)
           | none => storeTier cn db
         | none => storeTier cn db)
      | _ => storeTier cn db

/-- Tagged customer detail: an individual row or an organization row. -/
inductive CustomerDetail where
  | individual (i : IndividualCustomer)
  | store (s : StoreCustomer)
deriving DecidableEq

/-- Organization tier of the record-returning match_customer_to_database
(openai_full_data_extraction.py lines 481-497). -/
def storeTierFull (cn : Str) (db : Db) : Option Customer × Option CustomerDetail :=
  match db.stores.find? (storeMatch cn) with
  | some st =>
    match db.customers.find? (fun c => c.StoreID == some st.BusinessEntityID) with
    | some c => (some c, some (.store st))
    | none => (none, none)
  | none => (none, none)

/-- match_customer_to_database of openai_full_data_extraction.py (lines
438-497): same algorithm, returning the matched records themselves. -/
def match_customer_to_database_full (customer_name : Option Str) (db : Db) :
    Option Customer × Option CustomerDetail :=
  match customer_name with
  | none => (none, none)
  | some cn0 =>
    if cn0.isEmpty then (none, none)
    else
      let cn := pyStrip cn0
      match pySplit cn with
      | fn :: r :: rs =>
        (match db.individuals.find? (indMatch fn (joinSep [' '] (r :: rs))) with
         | some ind =>
           match db.customers.find? (fun c => c.PersonID == some ind.BusinessEntityID) with
           | some c => (some c, some (.individual ind))
           | none => storeTierFull cn db
         | none => storeTierFull cn db)
      | _ => storeTierFull cn db

/-- A customer record is linked to a detail row by the foreign reference
proper to the detail's kind. -/
def linkedDetail (c : Customer) : CustomerDetail → Prop
  | .individual i => c.PersonID = some i.BusinessEntityID
  | .store s => c.StoreID = some s.BusinessEntityID

/-! ## Structured invoice data (text-based pipeline) -/

/-- Pipeline failure taxonomy, as raised ValueError variants. -/
inductive PipeError where
  | emptyDocument
  | emptyResponse
  | malformed (diag : Str)
deriving DecidableEq

/-- SalesOrderHeader fields as the extraction prompt of
openai_invoice_data.py requests them: every field optional. -/
structure InvHeader where
  SalesOrderNumber : Option Str
  OrderDate : Option Str
  DueDate : Option Str
  ShipDate : Option Str
  Status : Option Int
  OnlineOrderFlag : Option Bool
  PurchaseOrderNumber : Option Str
  AccountNumber : Option Str
  SalesPersonID : Option Rat
  BillToAddressID : Option Int
  ShipToAddressID : Option Int
  ShipMethodID : Option Int
  CreditCardID : Option Rat
  CreditCardApprovalCode : Option Str
  CurrencyRateID : Option Rat
  SubTotal : Option Rat
  TaxAmt : Option Rat
  Freight : Option Rat
  TotalDue : Option Rat
  CustomerID : Option Int
  TerritoryID : Option Int
deriving DecidableEq

/-- SalesOrderDetail line item fields per the same prompt. -/
structure InvLineItem where
  OrderQty : Option Int
  ProductID : Option Int
  SpecialOfferID : Option Int
  UnitPrice : Option Rat
  UnitPriceDiscount : Option Rat
  LineTotal : Option Rat
  CarrierTrackingNumber : Option Str
deriving DecidableEq

/-- The parsed model reply: a loose dict, each top-level key may be
absent (outer none); extracted_customer_name may also be null (inner
none). -/
structure InvData where
  header : Option InvHeader
  line_items : Option (List InvLineItem)
  extracted_customer_name : Option (Option Str)
deriving DecidableEq

/-- The header update of the merge step (openai_invoice_data.py lines
242-246, claude_data_finder.py lines 231-236): each identifier is
written only when Python-truthy, i.e. non-None and non-zero. -/
def applyIds (h : InvHeader) (cid tid : Option Int) : InvHeader :=
  let h1 := match cid with
    | some v => if v = 0 then h else { h with CustomerID := some v }
    | none => h
  match tid with
  | some v => if v = 0 then h1 else { h1 with TerritoryID := some v }
  | none => h1

/-- The merge step of extract_invoice_data_from_text
(openai_invoice_data.py lines 233-248) and process_invoice_document
(claude_data_finder.py lines 223-238): resolve the extracted customer
name and write the identifiers into the header when present. -/
def mergeCustomerIds (e : InvData) (db : Db) : InvData :=
  match e.extracted_customer_name with
  | some (some name) =>
    if name.isEmpty then e
    else
      let p := match_customer_to_database (some name) db
      match e.header with
      | some h => { e with header := some (applyIds h p.1 p.2) }
      | none => e
  | _ => e

/-- call_openai_api (openai_invoice_data.py lines 88-149) with the
outbound model call and the JSON decoder abstracted: reject an empty
reply, sanitize, parse; on parse failure the error carries the first
500 characters of the sanitized text (response_text is already
sanitized at line 143). -/
def call_openai_api (model : Str → Str) (parse : Str → Option InvData)
    (text_content : Str) : Except PipeError InvData :=
  let raw := model text_content
  if raw.isEmpty then .error .emptyResponse
  else
    let s := sanitize_response raw
    match parse s with
    | some d => .ok d
    | none => .error (.malformed (s.take 500))

/-- extract_invoice_data_from_text (openai_invoice_data.py lines
214-248): reject empty or all-whitespace text before any model call,
then extract and merge the customer resolution. -/
def extract_invoice_data_from_text (model : Str → Str)
    (parse : Str → Option InvData) (db : Db) (text_content : Str) :
    Except PipeError InvData :=
  if (pyStrip text_content).isEmpty then .error .emptyDocument
  else
    match call_openai_api model parse text_content with
    | .error e => .error e
    | .ok d => .ok (mergeCustomerIds d db)

/-! ## One-step extraction (openai_full_data_extraction.py) -/

/-- Header fields as the one-step extraction prompt requests them. -/
structure FdHeader where
  SalesOrderNumber : Option Str
  OrderDate : Option Str
  DueDate : Option Str
  PurchaseOrderNumber : Option Str
  AccountNumber : Option Str
  SubTotal : Option Rat
  TaxAmt : Option Rat
  TotalDue : Option Rat
deriving DecidableEq

/-- Line item fields as the one-step extraction prompt requests them. -/
structure FdLineItem where
  OrderQty : Option Int
  ProductID : Option Int
  ProductDescription : Option Str
  UnitPrice : Option Rat
  UnitPriceDiscount : Option Rat
  LineTotal : Option Rat
deriving DecidableEq

/-- Result dict of extract_invoice_data_from_document: the extraction
triple plus the customer and customer_detail keys added by the merge
(outer none means the key is absent, inner none means it is null). -/
structure FdResult where
  header : FdHeader
  line_items : List FdLineItem
  extracted_customer_name : Option Str
  customer : Option (Option Customer)
  customer_detail : Option (Option CustomerDetail)
deriving DecidableEq

/-- The hard-coded extracted_data literal of
extract_invoice_data_from_document (openai_full_data_extraction.py
lines 526-556); the per-file-type dispatch above it (lines 515-524) is
commented out in the source. -/
def fixedExtractedData : FdResult :=
  { header :=
      { SalesOrderNumber := some ("11223344".toList)
        OrderDate := some ("2025-06-04".toList)
        DueDate := none
        PurchaseOrderNumber := none
        AccountNumber := none
        SubTotal := some 1350
        TaxAmt := some 0
        TotalDue := some 1350 }
    line_items :=
      [ { OrderQty := some 1
          ProductID := none
          ProductDescription := some ("Half-Finger Gloves, M".toList)
          UnitPrice := some 50
          UnitPriceDiscount := none
          LineTotal := some 50 }
      , { OrderQty := some 2
          ProductID := none
          ProductDescription := some ("Classic Vest, S".toList)
          UnitPrice := some 600
          UnitPriceDiscount := none
          LineTotal := some 1200 } ]
    extracted_customer_name := some ("Isabella Torres".toList)
    customer := none
    customer_detail := none }

/-- The merge of openai_full_data_extraction.py lines 560-607: when a
truthy customer name was extracted, resolve it and attach the customer
and customer_detail keys (null when unresolved); the header is never
touched. -/
def mergeCustomerFd (e : FdResult) (db : Db) : FdResult :=
  match e.extracted_customer_name with
  | some name =>
    if name.isEmpty then e
    else
      let p := match_customer_to_database_full (some name) db
      { e with customer := some p.1, customer_detail := some p.2 }
  | none => e

/-- extract_invoice_data_from_document (openai_full_data_extraction.py
lines 500-609), the pipeline entry point used by the upload endpoint
(app.py line 72): the file bytes and filename are parameters the active
code never reads. -/
def extract_invoice_data_from_document (file : List Nat) (filename : Str)
    (db : Db) : FdResult :=
  mergeCustomerFd fixedExtractedData db

/-! ## Tiered PDF text recovery (document_LLM_image_extraction.py) -/

/-- A PDF as the per-page results of page.extract_text(): None or the
page's text layer. -/
abbrev Pdf := List (Option Str)

/-- Environment of extract_text_from_pdf_gpt with the effectful parts
abstracted: whether pdf2image imports, and the stripped-before-join
replies the vision model would give for the rasterized pages. -/
structure PdfEnv where
  rasterAvailable : Bool
  visionPages : List Str

/-- Outcome of extract_text_from_pdf_gpt, tagged by the code path that
produced it. -/
inductive RecoveryOutcome where
  | tier1 (text : Str)
  | tier2 (text : Str)
  | tier1Fallback (text : Str)
  | failedImageBased
deriving DecidableEq

/-- The pages kept by the Tier-1 loop (lines 124-128): pages whose text
is non-None and has a non-empty strip, original texts retained. -/
def tier1Texts (pages : Pdf) : List Str :=
  pages.filterMap (fun p =>
    match p with
    | some t => if (pyStrip t).isEmpty then none else some t
    | none => none)

/-- total_text_length of line 131: the summed lengths of the stripped
kept texts. -/
def tier1Total (pages : Pdf) : Nat :=
  ((tier1Texts pages).map (fun t => (pyStrip t).length)).sum

/-- extract_text_from_pdf_gpt (document_LLM_image_extraction.py lines
104-192): accept Tier-1 text when its total stripped length exceeds
100; otherwise rasterize and query the vision model per page when
pdf2image is available; otherwise fall back to any Tier-1 text or fail. -/
def extract_text_from_pdf_gpt (env : PdfEnv) (pages : Pdf) : RecoveryOutcome :=
  let all_text := tier1Texts pages
  if tier1Total pages > 100 then .tier1 (joinNl all_text)
  else if env.rasterAvailable then .tier2 (joinNl (env.visionPages.map pyStrip))
  else if all_text.isEmpty then .failedImageBased
  else .tier1Fallback (joinNl all_text)

/-! ## Helper lemmas about stripping and fences -/

/-- The backtick character, recovered from a string literal. -/
def bq : Char := "`".toList.headD ' '

theorem lstrip_cons_of_neg {c : Char} {s : Str} (h : wsp c = false) :
    lstrip (c :: s) = c :: s := by
  simp [lstrip, List.dropWhile_cons, h]

theorem lstrip_cons_of_pos {c : Char} {s : Str} (h : wsp c = true) :
    lstrip (c :: s) = lstrip s := by
  simp [lstrip, List.dropWhile_cons, h]

theorem lstrip_append (s u : Str) (h : lstrip s ≠ []) :
    lstrip (s ++ u) = lstrip s ++ u := by
  simp only [lstrip] at *
  rw [List.dropWhile_append, if_neg]
  simp [List.isEmpty_eq_false, h]

theorem rstrip_append (s u : Str) (h : rstrip u ≠ []) :
    rstrip (s ++ u) = s ++ rstrip u := by
  have h' : u.reverse.dropWhile wsp ≠ [] := by
    intro hx
    apply h
    simp [rstrip, hx]
  simp only [rstrip] at *
  rw [List.reverse_append, List.dropWhile_append, if_neg, List.reverse_append,
    List.reverse_reverse]
  simp [List.isEmpty_eq_false, h']

theorem rstrip_concat_of_neg {c : Char} {s : Str} (h : wsp c = false) :
    rstrip (s ++ [c]) = s ++ [c] := by
  simp [rstrip, List.dropWhile_cons, h]

theorem rstrip_concat_of_pos {c : Char} {s : Str} (h : wsp c = true) :
    rstrip (s ++ [c]) = rstrip s := by
  simp [rstrip, List.dropWhile_cons, h]

theorem lstrip_length_le (s : Str) : (lstrip s).length ≤ s.length :=
  (List.dropWhile_suffix wsp).length_le

theorem rstrip_length_le (s : Str) : (rstrip s).length ≤ s.length := by
  have := (List.dropWhile_suffix (l := s.reverse) wsp).length_le
  simpa [rstrip] using this

theorem wsp_head_false_of_lstrip {c : Char} {s : Str}
    (h : lstrip (c :: s) = c :: s) : wsp c = false := by
  cases hw : wsp c with
  | false => rfl
  | true =>
    exfalso
    rw [lstrip_cons_of_pos hw] at h
    have := lstrip_length_le s
    have := congrArg List.length h
    simp at this
    omega

theorem rstrip_nl_pad {p : Str} (h2 : rstrip p = p) :
    rstrip (p ++ ['\n']) = p := by
  rw [rstrip_concat_of_pos (by decide), h2]

theorem pyStrip_nl_pad {p : Str} (h1 : lstrip p = p) (h2 : rstrip p = p) :
    pyStrip ('\n' :: p ++ ['\n']) = p := by
  cases p with
  | nil => decide
  | cons c p' =>
    have hc : wsp c = false := wsp_head_false_of_lstrip h1
    show rstrip (lstrip ('\n' :: ((c :: p') ++ ['\n']))) = c :: p'
    rw [lstrip_cons_of_pos (by decide),
      show (c :: p') ++ ['\n'] = c :: (p' ++ ['\n']) from rfl,
      lstrip_cons_of_neg hc,
      show c :: (p' ++ ['\n']) = (c :: p') ++ ['\n'] from rfl,
      rstrip_nl_pad h2]

theorem fence_not_prefix_of_head_ne {c : Char} (hc : c ≠ bq) (X : Str) :
    fence.isPrefixOf (c :: X) = false := by
  rw [Bool.eq_false_iff]
  intro h
  rw [List.isPrefixOf_iff_prefix] at h
  rw [show fence = bq :: bq :: bq :: [] from rfl] at h
  rw [List.cons_prefix_cons] at h
  exact hc h.1.symm

theorem prefix_stop_newline :
    ∀ (pre t X : Str), '\n' ∉ pre → pre <+: t ++ '\n' :: X → pre <+: t ++ ['\n'] := by
  intro pre
  induction pre with
  | nil => intro t X _ _; exact List.nil_prefix
  | cons a pr ih =>
    intro t X hnl h
    cases t with
    | nil =>
      simp only [List.nil_append, List.cons_prefix_cons] at h
      exact absurd h.1 (by intro he; exact hnl (he ▸ List.mem_cons_self a pr))
    | cons b t' =>
      simp only [List.cons_append, List.cons_prefix_cons] at h ⊢
      exact ⟨h.1, ih t' X (fun hm => hnl (List.mem_cons_of_mem _ hm)) h.2⟩

theorem fenceJson_not_prefix_of_tag {t : Str} (X : Str)
    (hj : ("json".toList).isPrefixOf (t ++ ['\n']) = false) :
    fenceJson.isPrefixOf (fence ++ t ++ '\n' :: X) = false := by
  rw [Bool.eq_false_iff]
  intro h
  rw [List.isPrefixOf_iff_prefix,
    show fenceJson = bq :: bq :: bq :: "json".toList from rfl,
    show fence ++ t ++ '\n' :: X = bq :: bq :: bq :: (t ++ '\n' :: X) from rfl,
    List.cons_prefix_cons, List.cons_prefix_cons, List.cons_prefix_cons] at h
  obtain ⟨-, -, -, h⟩ := h
  have h2 := prefix_stop_newline ("json".toList) t X (by decide) h
  rw [Bool.eq_false_iff] at hj
  exact hj (List.isPrefixOf_iff_prefix.mpr h2)

/-- First match in enumeration order: the element satisfies the filter
and everything before it does not. -/
def isFirstMatch {α : Type} (p : α → Bool) (l : List α) (a : α) : Prop :=
  p a = true ∧ ∃ l1 l2, l = l1 ++ a :: l2 ∧ ∀ x ∈ l1, p x = false

theorem find?_iff_isFirstMatch {α : Type} (p : α → Bool) (l : List α) (a : α) :
    l.find? p = some a ↔ isFirstMatch p l a := by
  rw [List.find?_eq_some]
  unfold isFirstMatch
  simp [Bool.not_eq_true']


/-- Decidable equality for Except results, used to evaluate the
pipeline on concrete inputs. -/
instance {e a : Type} [DecidableEq e] [DecidableEq a] : DecidableEq (Except e a) :=
  fun x y =>
    match x, y with
    | .error u, .error v =>
      if h : u = v then isTrue (by rw [h]) else isFalse (fun hh => by cases hh; exact h rfl)
    | .ok u, .ok v =>
      if h : u = v then isTrue (by rw [h]) else isFalse (fun hh => by cases hh; exact h rfl)
    | .error _, .ok _ => isFalse (fun hh => Except.noConfusion hh)
    | .ok _, .error _ => isFalse (fun hh => Except.noConfusion hh)

/-! ## Claim theorems -/

/-- C1: for every input file, filename and directory state, the pipeline
entry point used by the upload endpoint returns the fixed extraction
constant (SalesOrderNumber 11223344, two line items, customer name
Isabella Torres) in its header, line_items and extracted_customer_name,
and its output does not depend on the document bytes or the filename. -/
theorem extract_document_constant_output :
    ∀ (file : List Nat) (filename : Str) (db : Db)
      (file' : List Nat) (filename' : Str),
      (extract_invoice_data_from_document file filename db).header
          = fixedExtractedData.header ∧
      (extract_invoice_data_from_document file filename db).header.SalesOrderNumber
          = some ("11223344".toList) ∧
      (extract_invoice_data_from_document file filename db).line_items
          = fixedExtractedData.line_items ∧
      (extract_invoice_data_from_document file filename db).line_items.length = 2 ∧
      (extract_invoice_data_from_document file filename db).extracted_customer_name
          = some ("Isabella Torres".toList) ∧
      extract_invoice_data_from_document file filename db
          = extract_invoice_data_from_document file' filename' db := by
  intro file filename db file' filename'
  exact ⟨rfl, rfl, rfl, rfl, rfl, rfl⟩

/-- C9: for every text whose strip is empty, the text-based extraction
pipeline fails with the empty-document error before any model call: the
result does not depend on the model or the parser. -/
theorem extract_text_rejects_empty :
    ∀ (model : Str → Str) (parse : Str → Option InvData) (db : Db) (text : Str),
      (pyStrip text).isEmpty = true →
      extract_invoice_data_from_text model parse db text = .error .emptyDocument ∧
      ∀ (model' : Str → Str) (parse' : Str → Option InvData),
        extract_invoice_data_from_text model' parse' db text
          = extract_invoice_data_from_text model parse db text := by
  intro model parse db text h
  constructor
  · simp [extract_invoice_data_from_text, h]
  · intro model' parse'
    simp [extract_invoice_data_from_text, h]

/-- C9 witness: the whitespace-only document is rejected as empty. -/
theorem extract_text_rejects_empty_witness :
    extract_invoice_data_from_text (fun _ => []) (fun _ => none)
      { individuals := [], stores := [], customers := [] } ("  ".toList)
      = .error .emptyDocument :=
  (extract_text_rejects_empty (fun _ => []) (fun _ => none)
    { individuals := [], stores := [], customers := [] } ("  ".toList)
    (by decide)).1

/-- C4 (amended): when the sanitized reply fails to parse as JSON, the
pipeline fails with the malformed-response error whose diagnostic text
is the first at-most-500 characters of the sanitized reply: a prefix of
the sanitized text, of length at most 500. -/
theorem call_openai_api_malformed_diag :
    ∀ (model : Str → Str) (parse : Str → Option InvData) (text : Str),
      model text ≠ [] →
      parse (sanitize_response (model text)) = none →
      call_openai_api model parse text
          = .error (.malformed ((sanitize_response (model text)).take 500)) ∧
      ((sanitize_response (model text)).take 500) <+: sanitize_response (model text) ∧
      ((sanitize_response (model text)).take 500).length ≤ 500 := by
  intro model parse text hne hp
  refine ⟨?_, List.take_prefix 500 _, ?_⟩
  · simp [call_openai_api, hne, hp]
  · have := List.length_take 500 (sanitize_response (model text))
    omega

/-- C4 witness: a concrete unparseable reply produces the malformed
error carrying the truncated sanitized text. -/
theorem call_openai_api_malformed_diag_witness :
    call_openai_api (fun _ => "```json\nbad data".toList) (fun _ => none)
      ("doc".toList)
      = .error (.malformed ("bad data".toList)) ∧
    ("bad data".toList : Str) <+: sanitize_response ("```json\nbad data".toList) := by
  have h := call_openai_api_malformed_diag (fun _ => "```json\nbad data".toList)
    (fun _ => none) ("doc".toList) (by decide) rfl
  refine ⟨?_, ?_⟩
  · rw [h.1]; decide
  · have := h.2.1
    revert this
    decide

/-- C4 counterexample: the diagnostic carried by the malformed error is
not in general a prefix of the raw (pre-sanitization) reply: with a
fenced raw reply the sanitized text is an internal substring. -/
theorem call_openai_api_diag_not_raw :
    call_openai_api (fun _ => "```json\nbad data".toList) (fun _ => none)
      ("doc".toList)
      = .error (.malformed ("bad data".toList)) ∧
    ¬ (("bad data".toList : Str) <+: ("```json\nbad data".toList : Str)) := by
  decide

/-- C2 (amended): a null or empty candidate returns no-match, but the
emptiness test runs before trimming: a non-empty whitespace-only
candidate is not rejected, it trims to the empty string and proceeds to
the organization tier with an empty pattern. -/
theorem match_customer_null_or_empty :
    ∀ (db : Db) (cand : Str),
      match_customer_to_database none db = (none, none) ∧
      match_customer_to_database (some []) db = (none, none) ∧
      (cand ≠ [] → pyStrip cand = [] →
        match_customer_to_database (some cand) db = storeTier [] db) := by
  intro db cand
  refine ⟨rfl, rfl, ?_⟩
  intro hne hstrip
  have hie : cand.isEmpty = false := by simp [hne]
  simp [match_customer_to_database, hie, hstrip, pySplit, pySplitAux]

/-- Directory with one organization row linked to one customer; used to
exercise the whitespace-only candidate. -/
def wsDb : Db :=
  { individuals := []
    stores := [{ BusinessEntityID := 7, Name := some ("Acme Ltd".toList),
                 AddressType := none, AddressLine1 := none, AddressLine2 := none,
                 City := none, StateProvinceName := none, PostalCode := none,
                 CountryRegionName := none }]
    customers := [{ CustomerID := 42, PersonID := none, StoreID := some 7,
                    TerritoryID := 3, AccountNumber := none }] }

/-- C2 witness: the null and empty candidates return no-match, and the
whitespace-only candidate reduces to the organization tier with the
empty pattern. -/
theorem match_customer_null_or_empty_witness :
    match_customer_to_database none wsDb = (none, none) ∧
    match_customer_to_database (some []) wsDb = (none, none) ∧
    match_customer_to_database (some ("   ".toList)) wsDb = storeTier [] wsDb := by
  have h := match_customer_null_or_empty wsDb ("   ".toList)
  exact ⟨h.1, h.2.1, h.2.2 (by decide) (by decide)⟩

/-- C2 counterexample: a whitespace-only candidate does not return
no-match: against a directory holding one organization with a linked
customer it resolves that customer, because the empty trimmed pattern
substring-matches any non-null organization name. -/
theorem match_customer_whitespace_resolves :
    match_customer_to_database (some ("   ".toList)) wsDb = (some 42, some 3) ∧
    match_customer_to_database (some ("   ".toList)) wsDb ≠ (none, none) := by
  decide

/-- Non-whitespace character count of a string: the metric named by the
tier-decision sentence of the spec. -/
def nonWsCount (s : Str) : Nat := (s.filter (fun c => !wsp c)).length

/-- The spec-side total: summed non-whitespace characters over all page
texts of the PDF. -/
def nonWsTotal (pages : Pdf) : Nat :=
  (pages.map (fun p => match p with | some t => nonWsCount t | none => 0)).sum

/-- C5 (amended): the tier decision compares the total length of each
kept page's trimmed text (internal whitespace counted, blank pages
skipped) with 100: above the threshold Tier-1 is accepted, the output
is the kept pages' texts joined by newlines and the environment
(rasterizer and vision model) is never consulted; at or below it,
Tier-1 is never the outcome and rasterization is attempted, reaching
the vision model when available. -/
theorem extract_text_pdf_tier_threshold :
    ∀ (env env' : PdfEnv) (pages : Pdf),
      (tier1Total pages > 100 →
        extract_text_from_pdf_gpt env pages = .tier1 (joinNl (tier1Texts pages)) ∧
        extract_text_from_pdf_gpt env pages = extract_text_from_pdf_gpt env' pages) ∧
      (tier1Total pages ≤ 100 →
        (∀ t, extract_text_from_pdf_gpt env pages ≠ .tier1 t) ∧
        (env.rasterAvailable = true →
          extract_text_from_pdf_gpt env pages
            = .tier2 (joinNl (env.visionPages.map pyStrip)))) := by
  intro env env' pages
  constructor
  · intro h
    constructor <;> simp [extract_text_from_pdf_gpt, h]
  · intro h
    have h' : ¬ (tier1Total pages > 100) := by omega
    constructor
    · intro t
      simp only [extract_text_from_pdf_gpt, if_neg h']
      cases hr : env.rasterAvailable
      · rw [if_neg (by simp)]
        split <;> simp
      · simp
    · intro hr
      simp [extract_text_from_pdf_gpt, h', hr]

/-- C5 witness: a 101-character page is accepted as Tier-1 regardless
of the environment; a short page with rasterization available goes to
Tier-2. -/
theorem extract_text_pdf_tier_threshold_witness :
    extract_text_from_pdf_gpt { rasterAvailable := false, visionPages := [] }
      [some (List.replicate 101 'a')]
      = .tier1 (List.replicate 101 'a') ∧
    extract_text_from_pdf_gpt { rasterAvailable := false, visionPages := [] }
      [some (List.replicate 101 'a')]
      = extract_text_from_pdf_gpt { rasterAvailable := true, visionPages := ["zz".toList] }
          [some (List.replicate 101 'a')] ∧
    extract_text_from_pdf_gpt { rasterAvailable := true, visionPages := ["ocr text".toList] }
      [some ("hi".toList)]
      = .tier2 ("ocr text".toList) := by
  have h1 := (extract_text_pdf_tier_threshold
    { rasterAvailable := false, visionPages := [] }
    { rasterAvailable := true, visionPages := ["zz".toList] }
    [some (List.replicate 101 'a')]).1 (by decide)
  have h2 := ((extract_text_pdf_tier_threshold
    { rasterAvailable := true, visionPages := ["ocr text".toList] }
    { rasterAvailable := true, visionPages := ["ocr text".toList] }
    [some ("hi".toList)]).2 (by decide)).2 rfl
  refine ⟨?_, h1.2, ?_⟩
  · rw [h1.1]; decide
  · rw [h2]; decide

/-- C5 counterexample: a page of two non-whitespace characters padded
with 100 internal spaces defeats the non-whitespace-character reading
of the threshold: its spec-side total is 2, at most 100, yet the code
accepts Tier-1 and never attempts rasterization, and the accepted text
also omits the blank second page. -/
theorem extract_text_pdf_nonws_refuted :
    nonWsTotal [some ('a' :: (List.replicate 100 ' ' ++ ['b'])), some ("   ".toList)] = 2 ∧
    extract_text_from_pdf_gpt { rasterAvailable := true, visionPages := [] }
      [some ('a' :: (List.replicate 100 ' ' ++ ['b'])), some ("   ".toList)]
      = .tier1 ('a' :: (List.replicate 100 ' ' ++ ['b'])) := by
  constructor <;> decide

/-- C6: for a PDF at or below the Tier-1 threshold with rasterization
unavailable, non-empty Tier-1 text is returned as a fallback instead of
failing, and with no Tier-1 text at all the recovery fails. -/
theorem extract_text_pdf_raster_unavailable :
    ∀ (env : PdfEnv) (pages : Pdf),
      env.rasterAvailable = false → tier1Total pages ≤ 100 →
      ((tier1Texts pages ≠ [] →
        extract_text_from_pdf_gpt env pages = .tier1Fallback (joinNl (tier1Texts pages))) ∧
      (tier1Texts pages = [] →
        extract_text_from_pdf_gpt env pages = .failedImageBased)) := by
  intro env pages hr ht
  have h' : ¬ (tier1Total pages > 100) := by omega
  constructor
  · intro hne
    have : (tier1Texts pages).isEmpty = false := by simp [hne]
    simp [extract_text_from_pdf_gpt, h', hr, this]
  · intro hemp
    simp [extract_text_from_pdf_gpt, h', hr, hemp]

/-- C6 witness: with rasterization unavailable, partial Tier-1 text is
returned, and a text-free PDF fails. -/
theorem extract_text_pdf_raster_unavailable_witness :
    extract_text_from_pdf_gpt { rasterAvailable := false, visionPages := [] }
      [some ("hi".toList)] = .tier1Fallback ("hi".toList) ∧
    extract_text_from_pdf_gpt { rasterAvailable := false, visionPages := [] }
      [none, some ("  ".toList)] = .failedImageBased := by
  have h1 := (extract_text_pdf_raster_unavailable
    { rasterAvailable := false, visionPages := [] } [some ("hi".toList)]
    rfl (by decide)).1 (by decide)
  have h2 := (extract_text_pdf_raster_unavailable
    { rasterAvailable := false, visionPages := [] } [none, some ("  ".toList)]
    rfl (by decide)).2 (by decide)
  exact ⟨by rw [h1]; decide, h2⟩

theorem storeTierFull_spec (cn : Str) (db : Db) :
    storeTierFull cn db = (none, none) ∨
    ∃ c d, storeTierFull cn db = (some c, some d) ∧
      c ∈ db.customers ∧ linkedDetail c d := by
  cases hst : db.stores.find? (storeMatch cn) with
  | none => left; simp [storeTierFull, hst]
  | some st =>
    cases hc : db.customers.find? (fun c => c.StoreID == some st.BusinessEntityID) with
    | none => left; simp [storeTierFull, hst, hc]
    | some c =>
      right
      refine ⟨c, .store st, ?_, List.mem_of_find?_eq_some hc, ?_⟩
      · simp [storeTierFull, hst, hc]
      · have hpred := List.find?_some hc
        simp only [beq_iff_eq] at hpred
        simpa [linkedDetail] using hpred

theorem storeTier_spec (cn : Str) (db : Db) :
    storeTier cn db = (none, none) ∨
    ∃ c, c ∈ db.customers ∧
      storeTier cn db = (some c.CustomerID, some c.TerritoryID) := by
  cases hst : db.stores.find? (storeMatch cn) with
  | none => left; simp [storeTier, hst]
  | some st =>
    cases hc : db.customers.find? (fun c => c.StoreID == some st.BusinessEntityID) with
    | none => left; simp [storeTier, hst, hc]
    | some c =>
      right
      exact ⟨c, List.mem_of_find?_eq_some hc, by simp [storeTier, hst, hc]⟩

/-- C10: for every candidate and directory, customer matching returns a
consistent pair: either nothing on both components, or a customer from
the directory together with a detail row it is actually linked to; the
identifier-returning variant likewise returns (None, None) or the pair
of identifiers of one directory customer. -/
theorem match_customer_consistent_pair :
    ∀ (cand : Option Str) (db : Db),
      (match_customer_to_database_full cand db = (none, none) ∨
        ∃ c d, match_customer_to_database_full cand db = (some c, some d) ∧
          c ∈ db.customers ∧ linkedDetail c d) ∧
      (match_customer_to_database cand db = (none, none) ∨
        ∃ c, c ∈ db.customers ∧
          match_customer_to_database cand db
            = (some c.CustomerID, some c.TerritoryID)) := by
  intro cand db
  constructor
  · cases cand with
    | none => left; rfl
    | some cn0 =>
      by_cases he : cn0.isEmpty
      · left; simp [match_customer_to_database_full, he]
      · cases hp : pySplit (pyStrip cn0) with
        | nil =>
          rw [show match_customer_to_database_full (some cn0) db
            = storeTierFull (pyStrip cn0) db by
              simp [match_customer_to_database_full, he, hp]]
          exact storeTierFull_spec _ _
        | cons fn rest =>
          cases rest with
          | nil =>
            rw [show match_customer_to_database_full (some cn0) db
              = storeTierFull (pyStrip cn0) db by
                simp [match_customer_to_database_full, he, hp]]
            exact storeTierFull_spec _ _
          | cons r rs =>
            cases hi : db.individuals.find? (indMatch fn (joinSep [' '] (r :: rs))) with
            | none =>
              rw [show match_customer_to_database_full (some cn0) db
                = storeTierFull (pyStrip cn0) db by
                  simp [match_customer_to_database_full, he, hp, hi]]
              exact storeTierFull_spec _ _
            | some ind =>
              cases hc : db.customers.find?
                  (fun c => c.PersonID == some ind.BusinessEntityID) with
              | none =>
                rw [show match_customer_to_database_full (some cn0) db
                  = storeTierFull (pyStrip cn0) db by
                    simp [match_customer_to_database_full, he, hp, hi, hc]]
                exact storeTierFull_spec _ _
              | some c =>
                right
                refine ⟨c, .individual ind, ?_, List.mem_of_find?_eq_some hc, ?_⟩
                · simp [match_customer_to_database_full, he, hp, hi, hc]
                · have hpred := List.find?_some hc
                  simp only [beq_iff_eq] at hpred
                  simpa [linkedDetail] using hpred
  · cases cand with
    | none => left; rfl
    | some cn0 =>
      by_cases he : cn0.isEmpty
      · left; simp [match_customer_to_database, he]
      · cases hp : pySplit (pyStrip cn0) with
        | nil =>
          rw [show match_customer_to_database (some cn0) db
            = storeTier (pyStrip cn0) db by
              simp [match_customer_to_database, he, hp]]
          exact storeTier_spec _ _
        | cons fn rest =>
          cases rest with
          | nil =>
            rw [show match_customer_to_database (some cn0) db
              = storeTier (pyStrip cn0) db by
                simp [match_customer_to_database, he, hp]]
            exact storeTier_spec _ _
          | cons r rs =>
            cases hi : db.individuals.find? (indMatch fn (joinSep [' '] (r :: rs))) with
            | none =>
              rw [show match_customer_to_database (some cn0) db
                = storeTier (pyStrip cn0) db by
                  simp [match_customer_to_database, he, hp, hi]]
              exact storeTier_spec _ _
            | some ind =>
              cases hc : db.customers.find?
                  (fun c => c.PersonID == some ind.BusinessEntityID) with
              | none =>
                rw [show match_customer_to_database (some cn0) db
                  = storeTier (pyStrip cn0) db by
                    simp [match_customer_to_database, he, hp, hi, hc]]
                exact storeTier_spec _ _
              | some c =>
                right
                exact ⟨c, List.mem_of_find?_eq_some hc,
                  by simp [match_customer_to_database, he, hp, hi, hc]⟩

/-- C8: with a multi-token candidate, resolution searches Individual
rows for a simultaneous case-insensitive substring match of the first
token on the given name and the joined remaining tokens on the family
name, first in enumeration order; a matching row whose identity no
customer references falls through to the organization tier without
raising; when no individual matches the organization tier decides; when
neither tier matches the result is no-match. -/
theorem match_customer_individual_algorithm :
    ∀ (db : Db) (cand fn r : Str) (rs : List Str),
      pySplit (pyStrip cand) = fn :: r :: rs →
      ((∀ ind cu, isFirstMatch (indMatch fn (joinSep [' '] (r :: rs))) db.individuals ind →
        isFirstMatch (fun c => c.PersonID == some ind.BusinessEntityID) db.customers cu →
        match_customer_to_database (some cand) db
          = (some cu.CustomerID, some cu.TerritoryID)) ∧
      (∀ ind, isFirstMatch (indMatch fn (joinSep [' '] (r :: rs))) db.individuals ind →
        (∀ c ∈ db.customers, (c.PersonID == some ind.BusinessEntityID) = false) →
        match_customer_to_database (some cand) db = storeTier (pyStrip cand) db) ∧
      ((∀ i ∈ db.individuals, indMatch fn (joinSep [' '] (r :: rs)) i = false) →
        match_customer_to_database (some cand) db = storeTier (pyStrip cand) db) ∧
      ((∀ i ∈ db.individuals, indMatch fn (joinSep [' '] (r :: rs)) i = false) →
        (∀ st ∈ db.stores, storeMatch (pyStrip cand) st = false) →
        match_customer_to_database (some cand) db = (none, none))) := by
  intro db cand fn r rs hsplit
  have hne : ¬ (cand.isEmpty = true) := by
    intro h
    rw [List.isEmpty_iff] at h
    subst h
    simp [pyStrip, lstrip, rstrip, pySplit, pySplitAux] at hsplit
  refine ⟨?_, ?_, ?_, ?_⟩
  · intro ind cu hind hcu
    have hi := (find?_iff_isFirstMatch _ _ _).mpr hind
    have hc := (find?_iff_isFirstMatch _ _ _).mpr hcu
    simp [match_customer_to_database, hne, hsplit, hi, hc]
  · intro ind hind hnone
    have hi := (find?_iff_isFirstMatch _ _ _).mpr hind
    have hc : db.customers.find? (fun c => c.PersonID == some ind.BusinessEntityID)
        = none := by
      rw [List.find?_eq_none]
      intro x hx
      simp [hnone x hx]
    simp [match_customer_to_database, hne, hsplit, hi, hc]
  · intro hnone
    have hi : db.individuals.find? (indMatch fn (joinSep [' '] (r :: rs))) = none := by
      rw [List.find?_eq_none]
      intro x hx
      simp [hnone x hx]
    simp [match_customer_to_database, hne, hsplit, hi]
  · intro hnoneI hnoneS
    have hi : db.individuals.find? (indMatch fn (joinSep [' '] (r :: rs))) = none := by
      rw [List.find?_eq_none]
      intro x hx
      simp [hnoneI x hx]
    have hs : db.stores.find? (storeMatch (pyStrip cand)) = none := by
      rw [List.find?_eq_none]
      intro x hx
      simp [hnoneS x hx]
    simp [match_customer_to_database, storeTier, hne, hsplit, hi, hs]

/-- Individual detail row used by the resolution scenarios. -/
def isabellaRow : IndividualCustomer :=
  { BusinessEntityID := 1699, FirstName := some ("Isabella".toList),
    MiddleName := none, LastName := some ("Torres".toList),
    AddressType := none, AddressLine1 := none, AddressLine2 := none,
    City := none, StateProvinceName := none, PostalCode := none,
    CountryRegionName := none }

/-- Customer row referencing the individual detail row. -/
def isabellaCustomer : Customer :=
  { CustomerID := 29485, PersonID := some 1699, StoreID := none,
    TerritoryID := 1, AccountNumber := none }

/-- Directory where the individual tier resolves. -/
def indDb : Db :=
  { individuals := [isabellaRow], stores := [], customers := [isabellaCustomer] }

/-- Directory with a matching individual but no referencing customer. -/
def mismatchDb : Db :=
  { individuals := [isabellaRow], stores := [], customers := [] }

/-- Directory with no rows at all. -/
def emptyDb : Db :=
  { individuals := [], stores := [], customers := [] }

/-- C8 witness: the three scenarios at the candidate Isabella Torres:
individual-tier resolution, referential-mismatch fallthrough to the
organization tier, and the all-tiers-empty no-match. -/
theorem match_customer_individual_algorithm_witness :
    match_customer_to_database (some ("Isabella Torres".toList)) indDb
      = (some 29485, some 1) ∧
    match_customer_to_database (some ("Isabella Torres".toList)) mismatchDb
      = storeTier (pyStrip ("Isabella Torres".toList)) mismatchDb ∧
    match_customer_to_database (some ("Isabella Torres".toList)) emptyDb
      = (none, none) := by
  refine ⟨?_, ?_, ?_⟩
  · have h := (match_customer_individual_algorithm indDb ("Isabella Torres".toList)
      ("Isabella".toList) ("Torres".toList) [] (by decide)).1 isabellaRow isabellaCustomer
      ((find?_iff_isFirstMatch _ _ _).mp (by decide))
      ((find?_iff_isFirstMatch _ _ _).mp (by decide))
    rw [h]
    decide
  · exact (match_customer_individual_algorithm mismatchDb ("Isabella Torres".toList)
      ("Isabella".toList) ("Torres".toList) [] (by decide)).2.1 isabellaRow
      ((find?_iff_isFirstMatch _ _ _).mp (by decide))
      (by intro c hc; simp [mismatchDb] at hc)
  · exact ((match_customer_individual_algorithm emptyDb ("Isabella Torres".toList)
      ("Isabella".toList) ("Torres".toList) [] (by decide)).2.2.2)
      (by intro i hi; simp [emptyDb] at hi)
      (by intro st hs; simp [emptyDb] at hs)

/-- All header fields other than CustomerID and TerritoryID agree. -/
def headerFrameEq (h h' : InvHeader) : Prop :=
  h'.SalesOrderNumber = h.SalesOrderNumber ∧
  h'.OrderDate = h.OrderDate ∧
  h'.DueDate = h.DueDate ∧
  h'.ShipDate = h.ShipDate ∧
  h'.Status = h.Status ∧
  h'.OnlineOrderFlag = h.OnlineOrderFlag ∧
  h'.PurchaseOrderNumber = h.PurchaseOrderNumber ∧
  h'.AccountNumber = h.AccountNumber ∧
  h'.SalesPersonID = h.SalesPersonID ∧
  h'.BillToAddressID = h.BillToAddressID ∧
  h'.ShipToAddressID = h.ShipToAddressID ∧
  h'.ShipMethodID = h.ShipMethodID ∧
  h'.CreditCardID = h.CreditCardID ∧
  h'.CreditCardApprovalCode = h.CreditCardApprovalCode ∧
  h'.CurrencyRateID = h.CurrencyRateID ∧
  h'.SubTotal = h.SubTotal ∧
  h'.TaxAmt = h.TaxAmt ∧
  h'.Freight = h.Freight ∧
  h'.TotalDue = h.TotalDue

theorem headerFrameEq_refl (h : InvHeader) : headerFrameEq h h := by
  simp [headerFrameEq]

theorem applyIds_frame (h : InvHeader) (cid tid : Option Int) :
    headerFrameEq h (applyIds h cid tid) := by
  rcases cid with _ | v <;> rcases tid with _ | w <;>
    simp only [applyIds] <;> (try split_ifs) <;> simp [headerFrameEq]

theorem applyIds_cid_cases (h : InvHeader) (cid tid : Option Int) :
    (applyIds h cid tid).CustomerID = h.CustomerID ∨
    ∃ v, cid = some v ∧ v ≠ 0 ∧ (applyIds h cid tid).CustomerID = some v := by
  rcases cid with _ | v <;> rcases tid with _ | w <;>
    simp only [applyIds] <;> (try split_ifs) <;> simp_all

theorem applyIds_tid_cases (h : InvHeader) (cid tid : Option Int) :
    (applyIds h cid tid).TerritoryID = h.TerritoryID ∨
    ∃ v, tid = some v ∧ v ≠ 0 ∧ (applyIds h cid tid).TerritoryID = some v := by
  rcases cid with _ | v <;> rcases tid with _ | w <;>
    simp only [applyIds] <;> (try split_ifs) <;> simp_all

theorem applyIds_cid_not_none (h : InvHeader) (cid tid : Option Int)
    (hw : h.CustomerID ≠ none) : (applyIds h cid tid).CustomerID ≠ none := by
  rcases applyIds_cid_cases h cid tid with hc | ⟨v, -, -, hc⟩ <;> simp [hc, hw]

theorem applyIds_tid_not_none (h : InvHeader) (cid tid : Option Int)
    (hw : h.TerritoryID ≠ none) : (applyIds h cid tid).TerritoryID ≠ none := by
  rcases applyIds_tid_cases h cid tid with hc | ⟨v, -, -, hc⟩ <;> simp [hc, hw]

theorem set_header_self (e : InvData) (h : InvHeader) (hh : e.header = some h) :
    { e with header := some h } = e := by
  rcases e with ⟨hd, li, nm⟩
  simp only at hh
  rw [hh]

theorem mergeCustomerIds_cases (e : InvData) (db : Db) :
    mergeCustomerIds e db = e ∨
    ∃ name h, e.extracted_customer_name = some (some name) ∧ name ≠ [] ∧
      e.header = some h ∧
      mergeCustomerIds e db
        = { e with header := some (applyIds h
            (match_customer_to_database (some name) db).1
            (match_customer_to_database (some name) db).2) } := by
  rcases e with ⟨hd, li, nm⟩
  rcases nm with _ | nm
  · left; rfl
  rcases nm with _ | name
  · left; rfl
  by_cases hne : name.isEmpty
  · left; simp [mergeCustomerIds, hne]
  · rcases hd with _ | h
    · left; simp [mergeCustomerIds, hne]
    · right
      refine ⟨name, h, rfl, by simpa [List.isEmpty_iff] using hne, rfl, ?_⟩
      simp [mergeCustomerIds, hne]

/-- C7: the merge step writes only CustomerID and TerritoryID, and only
when resolution produced them: no-match, a missing or null or empty
candidate name, or a missing header dict leave the extraction result
untouched; when the header is present the merged header keeps every
other field, never replaces a present identifier with null, and any
changed identifier is exactly a non-zero resolved one; the one-step
pipeline's merge never touches header, line items or the extracted
name at all. -/
theorem merge_resolution_frame :
    ∀ (db : Db) (e : InvData),
      ((mergeCustomerIds e db).line_items = e.line_items ∧
       (mergeCustomerIds e db).extracted_customer_name = e.extracted_customer_name) ∧
      (e.header = none → mergeCustomerIds e db = e) ∧
      (e.extracted_customer_name = none → mergeCustomerIds e db = e) ∧
      (e.extracted_customer_name = some none → mergeCustomerIds e db = e) ∧
      (∀ name, e.extracted_customer_name = some (some name) → name = [] →
        mergeCustomerIds e db = e) ∧
      (∀ name, e.extracted_customer_name = some (some name) →
        match_customer_to_database (some name) db = (none, none) →
        mergeCustomerIds e db = e) ∧
      (∀ h, e.header = some h → ∃ h', (mergeCustomerIds e db).header = some h' ∧
        headerFrameEq h h' ∧
        (h'.CustomerID = h.CustomerID ∨ ∃ name v,
          e.extracted_customer_name = some (some name) ∧
          (match_customer_to_database (some name) db).1 = some v ∧ v ≠ 0 ∧
          h'.CustomerID = some v) ∧
        (h'.TerritoryID = h.TerritoryID ∨ ∃ name v,
          e.extracted_customer_name = some (some name) ∧
          (match_customer_to_database (some name) db).2 = some v ∧ v ≠ 0 ∧
          h'.TerritoryID = some v) ∧
        (h.CustomerID ≠ none → h'.CustomerID ≠ none) ∧
        (h.TerritoryID ≠ none → h'.TerritoryID ≠ none)) ∧
      (∀ f : FdResult, (mergeCustomerFd f db).header = f.header ∧
        (mergeCustomerFd f db).line_items = f.line_items ∧
        (mergeCustomerFd f db).extracted_customer_name = f.extracted_customer_name) := by
  intro db e
  refine ⟨?_, ?_, ?_, ?_, ?_, ?_, ?_, ?_⟩
  · rcases mergeCustomerIds_cases e db with heq | ⟨name, h, -, -, -, heq⟩
    · rw [heq]; exact ⟨rfl, rfl⟩
    · rw [heq]
      rcases e with ⟨hd, li, nm⟩
      exact ⟨rfl, rfl⟩
  · intro hnone
    rcases mergeCustomerIds_cases e db with heq | ⟨name, h, -, -, hh, -⟩
    · exact heq
    · rw [hnone] at hh; cases hh
  · intro hnone
    rcases mergeCustomerIds_cases e db with heq | ⟨name, h, hn, -, -, -⟩
    · exact heq
    · rw [hnone] at hn; cases hn
  · intro hnone
    rcases mergeCustomerIds_cases e db with heq | ⟨name, h, hn, -, -, -⟩
    · exact heq
    · rw [hnone] at hn; cases hn
  · intro name hn hnil
    rcases mergeCustomerIds_cases e db with heq | ⟨name', h, hn', hne, -, -⟩
    · exact heq
    · rw [hn] at hn'
      cases hn'
      exact absurd hnil hne
  · intro name hn hm
    rcases mergeCustomerIds_cases e db with heq | ⟨name', h, hn', -, hh, heq⟩
    · exact heq
    · rw [hn] at hn'
      cases hn'
      rw [heq, hm]
      exact set_header_self e h hh
  · intro h hh
    rcases mergeCustomerIds_cases e db with heq | ⟨name, h0, hn, -, hh0, heq⟩
    · refine ⟨h, ?_, headerFrameEq_refl h, Or.inl rfl, Or.inl rfl,
        fun hx => hx, fun hx => hx⟩
      rw [heq]
      exact hh
    · rw [hh] at hh0
      cases hh0
      refine ⟨applyIds h (match_customer_to_database (some name) db).1
          (match_customer_to_database (some name) db).2, ?_, applyIds_frame h _ _,
          ?_, ?_, applyIds_cid_not_none h _ _, applyIds_tid_not_none h _ _⟩
      · rw [heq]
      · rcases applyIds_cid_cases h (match_customer_to_database (some name) db).1
          (match_customer_to_database (some name) db).2 with hc | ⟨v, hv, hv0, hc⟩
        · exact Or.inl hc
        · exact Or.inr ⟨name, v, hn, hv, hv0, hc⟩
      · rcases applyIds_tid_cases h (match_customer_to_database (some name) db).1
          (match_customer_to_database (some name) db).2 with hc | ⟨v, hv, hv0, hc⟩
        · exact Or.inl hc
        · exact Or.inr ⟨name, v, hn, hv, hv0, hc⟩
  · intro f
    rcases f with ⟨hd, li, nm, cu, cd⟩
    rcases nm with _ | name
    · exact ⟨rfl, rfl, rfl⟩
    · by_cases hne : name.isEmpty <;> simp [mergeCustomerFd, hne]

/-- Extraction result with a populated header and an unresolvable
candidate name, used to exercise the merge frame. -/
def sampleInvData : InvData :=
  { header := some
      { SalesOrderNumber := some ("SO-1".toList), OrderDate := none,
        DueDate := none, ShipDate := none, Status := none,
        OnlineOrderFlag := none, PurchaseOrderNumber := none,
        AccountNumber := none, SalesPersonID := none,
        BillToAddressID := none, ShipToAddressID := none,
        ShipMethodID := none, CreditCardID := none,
        CreditCardApprovalCode := none, CurrencyRateID := none,
        SubTotal := some 10, TaxAmt := none, Freight := none,
        TotalDue := some 10, CustomerID := some 5, TerritoryID := none }
    line_items := some []
    extracted_customer_name := some (some ("Zed Qux".toList)) }

/-- C7 witness: on the empty directory resolution is no-match and the
merge leaves the sample extraction result untouched. -/
theorem merge_resolution_frame_witness :
    mergeCustomerIds sampleInvData emptyDb = sampleInvData ∧
    (mergeCustomerFd fixedExtractedData emptyDb).header
      = fixedExtractedData.header := by
  constructor
  · exact (merge_resolution_frame emptyDb sampleInvData).2.2.2.2.2.1
      ("Zed Qux".toList) rfl (by decide)
  · exact ((merge_resolution_frame emptyDb sampleInvData).2.2.2.2.2.2.2
      fixedExtractedData).1

theorem sanitize_bare {p : Str} (h1 : lstrip p = p) (h2 : rstrip p = p)
    (hfp : fence.isPrefixOf p = false) (hfs : fence.isSuffixOf p = false) :
    sanitize_response p = p := by
  have hps : pyStrip p = p := by
    simp only [pyStrip]
    rw [h1, h2]
  have hj : fenceJson.isPrefixOf p = false := by
    cases hjj : fenceJson.isPrefixOf p with
    | false => rfl
    | true =>
      exfalso
      have hpre : fence <+: p :=
        List.IsPrefix.trans (by decide) (List.isPrefixOf_iff_prefix.mp hjj)
      rw [Bool.eq_false_iff] at hfp
      exact hfp (List.isPrefixOf_iff_prefix.mpr hpre)
  simp [sanitize_response, hps, hj, hfp, hfs]

theorem sanitize_json_fenced {p : Str} (h1 : lstrip p = p) (h2 : rstrip p = p) :
    sanitize_response (fenceJson ++ ('\n' :: (p ++ ('\n' :: fence)))) = p := by
  have hassoc : fenceJson ++ ('\n' :: (p ++ ('\n' :: fence)))
      = (fenceJson ++ ('\n' :: (p ++ ['\n']))) ++ fence := by simp
  have hps : pyStrip (fenceJson ++ ('\n' :: (p ++ ('\n' :: fence))))
      = fenceJson ++ ('\n' :: (p ++ ('\n' :: fence))) := by
    simp only [pyStrip]
    rw [lstrip_append fenceJson ('\n' :: (p ++ ('\n' :: fence))) (by decide),
      show lstrip fenceJson = fenceJson from by decide,
      hassoc, rstrip_append (fenceJson ++ ('\n' :: (p ++ ['\n']))) fence (by decide),
      show rstrip fence = fence from by decide, ← hassoc]
  have h1p : fenceJson.isPrefixOf (fenceJson ++ ('\n' :: (p ++ ('\n' :: fence))))
      = true := by simp
  have hdrop : (fenceJson ++ ('\n' :: (p ++ ('\n' :: fence)))).drop 7
      = '\n' :: (p ++ ('\n' :: fence)) := List.drop_left' (by decide)
  have h2p : fence.isPrefixOf ('\n' :: (p ++ ('\n' :: fence))) = false :=
    fence_not_prefix_of_head_ne (by decide) _
  have h3s : fence.isSuffixOf ('\n' :: (p ++ ('\n' :: fence))) = true := by
    simp only [List.isSuffixOf_iff_suffix]
    exact ⟨'\n' :: (p ++ ['\n']), by simp⟩
  have hassoc2 : ('\n' : Char) :: (p ++ ('\n' :: fence))
      = ('\n' :: (p ++ ['\n'])) ++ fence := by simp
  have htake : ('\n' :: (p ++ ('\n' :: fence))).take
      (('\n' :: (p ++ ('\n' :: fence))).length - 3) = '\n' :: (p ++ ['\n']) := by
    rw [hassoc2]
    have hlen : (((('\n' : Char) :: (p ++ ['\n'])) ++ fence).length - 3)
        = (('\n' : Char) :: (p ++ ['\n'])).length := by
      simp [show fence.length = 3 from by decide]
    rw [hlen, List.take_left]
  simp only [sanitize_response]
  rw [hps, if_pos h1p, hdrop]
  rw [if_neg (show ¬ (fence.isPrefixOf ('\n' :: (p ++ ('\n' :: fence))) = true)
    from by simp [h2p])]
  rw [if_pos h3s, htake]
  exact pyStrip_nl_pad h1 h2

theorem sanitize_plain_fenced {p : Str} (h1 : lstrip p = p) (h2 : rstrip p = p) :
    sanitize_response (fence ++ ('\n' :: (p ++ ('\n' :: fence)))) = p := by
  have hassoc : fence ++ ('\n' :: (p ++ ('\n' :: fence)))
      = (fence ++ ('\n' :: (p ++ ['\n']))) ++ fence := by simp
  have hps : pyStrip (fence ++ ('\n' :: (p ++ ('\n' :: fence))))
      = fence ++ ('\n' :: (p ++ ('\n' :: fence))) := by
    simp only [pyStrip]
    rw [lstrip_append fence ('\n' :: (p ++ ('\n' :: fence))) (by decide),
      show lstrip fence = fence from by decide,
      hassoc, rstrip_append (fence ++ ('\n' :: (p ++ ['\n']))) fence (by decide),
      show rstrip fence = fence from by decide, ← hassoc]
  have h1p : fenceJson.isPrefixOf (fence ++ ('\n' :: (p ++ ('\n' :: fence))))
      = false := by
    have := fenceJson_not_prefix_of_tag (t := []) (p ++ ('\n' :: fence)) (by decide)
    simpa using this
  have h2p : fence.isPrefixOf (fence ++ ('\n' :: (p ++ ('\n' :: fence)))) = true := by
    simp
  have hdrop : (fence ++ ('\n' :: (p ++ ('\n' :: fence)))).drop 3
      = '\n' :: (p ++ ('\n' :: fence)) := List.drop_left' (by decide)
  have h3s : fence.isSuffixOf ('\n' :: (p ++ ('\n' :: fence))) = true := by
    simp only [List.isSuffixOf_iff_suffix]
    exact ⟨'\n' :: (p ++ ['\n']), by simp⟩
  have hassoc2 : ('\n' : Char) :: (p ++ ('\n' :: fence))
      = ('\n' :: (p ++ ['\n'])) ++ fence := by simp
  have htake : ('\n' :: (p ++ ('\n' :: fence))).take
      (('\n' :: (p ++ ('\n' :: fence))).length - 3) = '\n' :: (p ++ ['\n']) := by
    rw [hassoc2]
    have hlen : (((('\n' : Char) :: (p ++ ['\n'])) ++ fence).length - 3)
        = (('\n' : Char) :: (p ++ ['\n'])).length := by
      simp [show fence.length = 3 from by decide]
    rw [hlen, List.take_left]
  simp only [sanitize_response]
  rw [hps]
  rw [if_neg (show ¬ (fenceJson.isPrefixOf (fence ++ ('\n' :: (p ++ ('\n' :: fence)))) = true)
    from by simp [h1p])]
  rw [if_pos h2p, hdrop]
  rw [if_pos h3s, htake]
  exact pyStrip_nl_pad h1 h2

theorem sanitize_tagged_fenced {p t : Str} (h1 : lstrip p = p) (h2 : rstrip p = p)
    (hpne : p ≠ []) (ht : lstrip t = t) (htne : t ≠ [])
    (hj : ("json".toList).isPrefixOf (t ++ ['\n']) = false) :
    sanitize_response (fence ++ (t ++ ('\n' :: (p ++ ('\n' :: fence)))))
      = t ++ ('\n' :: p) := by
  have hassoc : fence ++ (t ++ ('\n' :: (p ++ ('\n' :: fence))))
      = (fence ++ (t ++ ('\n' :: (p ++ ['\n'])))) ++ fence := by simp
  have hps : pyStrip (fence ++ (t ++ ('\n' :: (p ++ ('\n' :: fence)))))
      = fence ++ (t ++ ('\n' :: (p ++ ('\n' :: fence)))) := by
    simp only [pyStrip]
    rw [lstrip_append fence (t ++ ('\n' :: (p ++ ('\n' :: fence)))) (by decide),
      show lstrip fence = fence from by decide,
      hassoc, rstrip_append (fence ++ (t ++ ('\n' :: (p ++ ['\n'])))) fence (by decide),
      show rstrip fence = fence from by decide, ← hassoc]
  have h1p : fenceJson.isPrefixOf (fence ++ (t ++ ('\n' :: (p ++ ('\n' :: fence)))))
      = false := by
    simpa using fenceJson_not_prefix_of_tag (t := t) (p ++ ('\n' :: fence)) hj
  have h2p : fence.isPrefixOf (fence ++ (t ++ ('\n' :: (p ++ ('\n' :: fence)))))
      = true := by simp
  have hdrop : (fence ++ (t ++ ('\n' :: (p ++ ('\n' :: fence))))).drop 3
      = t ++ ('\n' :: (p ++ ('\n' :: fence))) := List.drop_left' (by decide)
  have h3s : fence.isSuffixOf (t ++ ('\n' :: (p ++ ('\n' :: fence)))) = true := by
    simp only [List.isSuffixOf_iff_suffix]
    exact ⟨t ++ ('\n' :: (p ++ ['\n'])), by simp⟩
  have hassoc2 : t ++ ('\n' :: (p ++ ('\n' :: fence)))
      = (t ++ ('\n' :: (p ++ ['\n']))) ++ fence := by simp
  have htake : (t ++ ('\n' :: (p ++ ('\n' :: fence)))).take
      ((t ++ ('\n' :: (p ++ ('\n' :: fence)))).length - 3)
      = t ++ ('\n' :: (p ++ ['\n'])) := by
    rw [hassoc2]
    have hlen : (((t ++ ('\n' :: (p ++ ['\n']))) ++ fence).length - 3)
        = (t ++ ('\n' :: (p ++ ['\n']))).length := by
      simp only [List.length_append, List.length_cons,
        show fence.length = 3 from by decide]
      omega
    rw [hlen, List.take_left]
  have hZ : rstrip ('\n' :: (p ++ ['\n'])) = '\n' :: p := by
    rw [show ('\n' : Char) :: (p ++ ['\n']) = (('\n' :: p) ++ ['\n']) from by simp,
      rstrip_concat_of_pos (by decide),
      show ('\n' : Char) :: p = ['\n'] ++ p from rfl,
      rstrip_append ['\n'] p (by rw [h2]; exact hpne), h2]
  have hfinal : pyStrip (t ++ ('\n' :: (p ++ ['\n']))) = t ++ ('\n' :: p) := by
    simp only [pyStrip]
    rw [lstrip_append t ('\n' :: (p ++ ['\n'])) (by rw [ht]; exact htne), ht,
      rstrip_append t ('\n' :: (p ++ ['\n'])) (by rw [hZ]; simp), hZ]
  simp only [sanitize_response]
  rw [hps]
  rw [if_neg (show ¬ (fenceJson.isPrefixOf
    (fence ++ (t ++ ('\n' :: (p ++ ('\n' :: fence))))) = true) from by simp [h1p])]
  rw [if_pos h2p, hdrop]
  rw [if_pos h3s, htake]
  exact hfinal

/-- C3 (amended): the sanitizer trims surrounding whitespace, removes
one leading code-fence marker together with its language tag only when
the tag is json (a marker with any other language tag loses only its
backticks: the tag text stays in the payload), removes one trailing
code-fence marker if present, and is the identity on a bare payload
with no surrounding whitespace and no leading or trailing marker. -/
theorem sanitize_response_behavior :
    ∀ (p t : Str), lstrip p = p → rstrip p = p →
      ((fence.isPrefixOf p = false → fence.isSuffixOf p = false →
        sanitize_response p = p) ∧
      sanitize_response (fenceJson ++ ('\n' :: (p ++ ('\n' :: fence)))) = p ∧
      sanitize_response (fence ++ ('\n' :: (p ++ ('\n' :: fence)))) = p ∧
      (p ≠ [] → lstrip t = t → t ≠ [] →
        ("json".toList).isPrefixOf (t ++ ['\n']) = false →
        sanitize_response (fence ++ (t ++ ('\n' :: (p ++ ('\n' :: fence)))))
          = t ++ ('\n' :: p))) := by
  intro p t h1 h2
  exact ⟨fun hfp hfs => sanitize_bare h1 h2 hfp hfs,
    sanitize_json_fenced h1 h2,
    sanitize_plain_fenced h1 h2,
    fun hpne ht htne hj => sanitize_tagged_fenced h1 h2 hpne ht htne hj⟩

/-- C3 witness: the amended behavior at the payload null and the tag
python: bare identity, json-fenced and plain-fenced unwrapping, and
tag-preserving removal of the backticks only. -/
theorem sanitize_response_behavior_witness :
    sanitize_response ("null".toList) = "null".toList ∧
    sanitize_response (fenceJson ++ ('\n' :: ("null".toList ++ ('\n' :: fence))))
      = "null".toList ∧
    sanitize_response (fence ++ ('\n' :: ("null".toList ++ ('\n' :: fence))))
      = "null".toList ∧
    sanitize_response (fence ++ ("python".toList
        ++ ('\n' :: ("null".toList ++ ('\n' :: fence)))))
      = "python".toList ++ ('\n' :: "null".toList) := by
  have h := sanitize_response_behavior ("null".toList) ("python".toList)
    (by decide) (by decide)
  exact ⟨h.1 (by decide) (by decide), h.2.1, h.2.2.1,
    h.2.2.2 (by decide) (by decide) (by decide) (by decide)⟩

/-- C3 counterexample: a leading marker with the language tag python is
not removed together with its tag: the sanitizer keeps the tag text, so
the result is not the bare payload the claim predicts. -/
theorem sanitize_response_tag_left_behind :
    sanitize_response ("```python\nnull\n```".toList) = "python\nnull".toList ∧
    sanitize_response ("```python\nnull\n```".toList) ≠ "null".toList := by
  constructor <;> decide
